import Mathlib

/-!
Verification of the knowledge-base selector in
`src/sabba_multi_knowledge_single_model/knowledge_bases.py`.

Python strings are modelled as lists of characters (`Str`), so that every
operation of the source (`lower`, `strip`, `split(",")`, `count('-')`) is a
structurally recursive, kernel-computable Lean function.  Printing is modelled
by returning the printed material: `parse_knowledge_base_selection` returns the
list of resolved ids together with the list of tokens it warned about, and
`print_available_knowledge_bases` returns the list of printed lines.
-/

/-- Python strings, modelled as lists of characters. -/
abbrev Str := List Char

/-- The character list of a Lean string literal (used to write Python string
literals from the source). -/
def chars (s : String) : Str := s.data

/-- Python `str.lower()` (the catalog only contains ASCII names, for which
per-character lowering is exact). -/
def pyLower (s : Str) : Str := s.map Char.toLower

/-- Python `str.strip()`: remove whitespace from both ends. -/
def pyStrip (s : Str) : Str :=
  ((s.dropWhile Char.isWhitespace).reverse.dropWhile Char.isWhitespace).reverse

/-- Python `str.split(",")`: split on every comma; the split of the empty
string is `[""]`, and consecutive commas produce empty pieces. -/
def splitOnComma : Str → List Str
  | [] => [[]]
  | c :: rest =>
    match splitOnComma rest with
    | [] => []
    | s :: ss => if c = ',' then [] :: s :: ss else (c :: s) :: ss

/-- The record type of the `KnowledgeBase` dataclass. -/
structure KnowledgeBase where
  id : Str
  name : Str
  icon_url : Str
  brand_color : Str
  org_url : Str
deriving DecidableEq

/-- The hardcoded module-level catalog `KNOWLEDGE_BASES`. -/
def KNOWLEDGE_BASES : List KnowledgeBase :=
  [{ id := chars "8be6dfd9-ecaf-4e2b-8414-01aecb67e147",
     name := chars "Blossom Analysis",
     icon_url := chars "images/logos/blossom_analysis.jpg",
     brand_color := chars "#FFFFFF",
     org_url := chars "https://blossomanalysis.com" },
   { id := chars "f73bbef9-ea3b-4f78-956d-b5fc38de7699",
     name := chars "Lucid News",
     icon_url := chars "images/logos/lucid_news.jpg",
     brand_color := chars "#2712BD",
     org_url := chars "https://lucidnews.com" },
   { id := chars "f88d9d45-f25e-4051-8a84-a8d7873622b8",
     name := chars "MAPS",
     icon_url := chars "images/logos/maps.jpg",
     brand_color := chars "#2712BD",
     org_url := chars "https://maps.org" },
   { id := chars "5f6e1ea5-1f3f-431a-8759-b66810582b73",
     name := chars "Psychedelic Alpha",
     icon_url := chars "images/logos/psychedelic_alpha.jpg",
     brand_color := chars "#CFC9E5",
     org_url := chars "https://psychedelicalpha.com" },
   { id := chars "c34bc3da-d466-4a2d-94c3-2e6fffbe6d1d",
     name := chars "Psychedelics Today",
     icon_url := chars "images/logos/psychedelics_today.jpg",
     brand_color := chars "#FFFFFF",
     org_url := chars "https://psychedelictoday.com" }]

/-- Lookup in a Python dict built by a comprehension from an association list:
a later binding of the same key overwrites an earlier one, so the rightmost
matching pair wins. -/
def dictGet {α : Type} : List (Str × α) → Str → Option α
  | [], _ => none
  | p :: rest, k =>
    match dictGet rest k with
    | some v => some v
    | none => if p.1 = k then some p.2 else none

/-- The module-level dict `KNOWLEDGE_BASES_BY_ID = {kb.id: kb for kb in KNOWLEDGE_BASES}`. -/
def KNOWLEDGE_BASES_BY_ID : List (Str × KnowledgeBase) :=
  KNOWLEDGE_BASES.map (fun kb => (kb.id, kb))

/-- The module-level dict `KNOWLEDGE_BASES_BY_NAME = {kb.name.lower(): kb for kb in KNOWLEDGE_BASES}`. -/
def KNOWLEDGE_BASES_BY_NAME : List (Str × KnowledgeBase) :=
  KNOWLEDGE_BASES.map (fun kb => (pyLower kb.name, kb))

/-- `get_knowledge_base_by_id(kb_id)`: `KNOWLEDGE_BASES_BY_ID.get(kb_id)`. -/
def get_knowledge_base_by_id (kb_id : Str) : Option KnowledgeBase :=
  dictGet KNOWLEDGE_BASES_BY_ID kb_id

/-- `get_knowledge_base_by_name(name)`: `KNOWLEDGE_BASES_BY_NAME.get(name.lower())`. -/
def get_knowledge_base_by_name (name : Str) : Option KnowledgeBase :=
  dictGet KNOWLEDGE_BASES_BY_NAME (pyLower name)

/-- The pieces of a selection string:
`[item.strip() for item in selection.split(",") if item.strip()]`. -/
def selectionItems (selection : Str) : List Str :=
  ((splitOnComma selection).map pyStrip).filter (fun item => item ≠ [])

/-- The body of the `for item in items` loop of `parse_knowledge_base_selection`:
an ID-shaped item (36 characters, exactly 4 hyphens) is appended verbatim;
anything else is treated as a name and looked up case-insensitively, a failed
lookup producing a warning (second component) instead of an id. -/
def resolveItem (item : Str) : List Str × List Str :=
  if item.length = 36 ∧ item.count '-' = 4 then
    ([item], [])
  else
    match get_knowledge_base_by_name item with
    | some kb => ([kb.id], [])
    | none => ([], [item])

/-- `parse_knowledge_base_selection(selection)`.  The first component is the
returned list `ids`; the second collects the tokens of the printed
`Warning: Knowledge base ... not found` messages. -/
def parse_knowledge_base_selection (selection : Str) : List Str × List Str :=
  if selection = [] then ([], [])
  else if pyLower selection = chars "all" then
    (KNOWLEDGE_BASES.map (fun kb => kb.id), [])
  else
    (selectionItems selection).foldl
      (fun acc item =>
        (acc.1 ++ (resolveItem item).1, acc.2 ++ (resolveItem item).2))
      ([], [])

/-- `parse_knowledge_base_selection` as called with a possibly absent
argument: Python's `if not selection` treats `None` like the empty string. -/
def parse_knowledge_base_selection_opt (selection : Option Str) : List Str × List Str :=
  match selection with
  | none => ([], [])
  | some s => parse_knowledge_base_selection s

/-- Decimal rendering of a Nat, for the `f"{i}. {kb.name}"` line. -/
def natStr (n : Nat) : Str := (Nat.repr n).data

/-- `print_available_knowledge_bases()`, modelled as the list of printed lines:
a header, a 50-hyphen separator, then one `for`-loop iteration per catalog
entry (`enumerate(KNOWLEDGE_BASES, 1)`) printing the numbered name line, the
ID line, the URL line and a blank line, then the static usage examples. -/
def print_available_knowledge_bases : List Str :=
  [chars "📚 Available Knowledge Bases:", List.replicate 50 '-']
  ++ (KNOWLEDGE_BASES.foldl
        (fun (acc : Nat × List Str) kb =>
          (acc.1 + 1,
           acc.2 ++ [natStr acc.1 ++ chars ". " ++ kb.name,
                     chars "   ID: " ++ kb.id,
                     chars "   URL: " ++ kb.org_url,
                     []]))
        (1, [])).2
  ++ [chars "💡 Usage examples:",
      chars "  By name: -k \"Blossom Analysis,MAPS\"",
      chars "  By ID: -k \"8be6dfd9-ecaf-4e2b-8414-01aecb67e147\"",
      chars "  All: -k \"all\""]

/-- The lines printed for one catalog entry (1-based position, display name,
id, organization URL, blank line): the declarative per-entry block against
which the loop above is checked. -/
def kbBlock (i : Nat) (kb : KnowledgeBase) : List Str :=
  [natStr i ++ chars ". " ++ kb.name,
   chars "   ID: " ++ kb.id,
   chars "   URL: " ++ kb.org_url,
   []]

/-!
Reference model for `list_available_knowledge_bases()`.  In Python the
module-level `KNOWLEDGE_BASES` is a list of references to mutable dataclass
objects, and `KNOWLEDGE_BASES.copy()` is a shallow copy: a fresh list object
holding the same references.  We model the object store as a heap (a list of
records indexed by address) and the catalog as the list of addresses; the copy
returns the same addresses in a fresh sequence value.
-/

/-- The process state: the object store and the module-level catalog list. -/
structure PyState where
  heap : List KnowledgeBase
  catalogRefs : List Nat
deriving DecidableEq

/-- The state right after module load: one heap cell per hardcoded record,
the catalog referring to them in definition order. -/
def initState : PyState :=
  { heap := KNOWLEDGE_BASES, catalogRefs := List.range KNOWLEDGE_BASES.length }

/-- Dereference an object address. -/
def readRef (s : PyState) (a : Nat) : Option KnowledgeBase := s.heap[a]?

/-- `list_available_knowledge_bases()`: `KNOWLEDGE_BASES.copy()` — a new list
holding the same record references. -/
def list_available_knowledge_bases (s : PyState) : List Nat := s.catalogRefs

/-- Mutating the record object at an address (e.g. assigning to a field of an
element obtained from the returned list: the dataclass is not frozen). -/
def writeRef (s : PyState) (a : Nat) (kb : KnowledgeBase) : PyState :=
  { s with heap := s.heap.set a kb }

/-- The catalog contents as seen through the process-wide list. -/
def viewCatalog (s : PyState) : List (Option KnowledgeBase) :=
  s.catalogRefs.map (readRef s)


/-! Helper lemmas shared by the claim theorems. -/

/-- A successful dict lookup returns a pair of the association list. -/
theorem dictGet_some_mem {α : Type} :
    ∀ (d : List (Str × α)) (k : Str) (v : α), dictGet d k = some v → (k, v) ∈ d := by
  intro d
  induction d with
  | nil => intro k v h; simp [dictGet] at h
  | cons p rest ih =>
    obtain ⟨p1, p2⟩ := p
    intro k v h
    unfold dictGet at h
    cases hrest : dictGet rest k with
    | some w =>
      rw [hrest] at h
      cases h
      exact List.mem_cons_of_mem _ (ih k v hrest)
    | none =>
      rw [hrest] at h
      by_cases hk : p1 = k
      · subst hk
        simp at h
        subst h
        exact List.mem_cons_self _ _
      · simp [hk] at h

/-- A key bound by no pair of the association list looks up to `none`. -/
theorem dictGet_eq_none {α : Type} :
    ∀ (d : List (Str × α)) (k : Str), (∀ p ∈ d, p.1 ≠ k) → dictGet d k = none := by
  intro d
  induction d with
  | nil => intro k _; rfl
  | cons p rest ih =>
    intro k h
    unfold dictGet
    rw [ih k (fun q hq => h q (List.mem_cons_of_mem _ hq))]
    simp [h p (List.mem_cons_self _ _)]

/-- With pairwise-distinct keys, each pair of the association list is found by
looking up its key. -/
theorem dictGet_of_mem_nodup {α : Type} :
    ∀ (d : List (Str × α)) (k : Str) (v : α),
      (d.map Prod.fst).Nodup → (k, v) ∈ d → dictGet d k = some v := by
  intro d
  induction d with
  | nil => intro k v _ hm; cases hm
  | cons p rest ih =>
    obtain ⟨p1, p2⟩ := p
    intro k v hnd hm
    rw [List.map_cons, List.nodup_cons] at hnd
    unfold dictGet
    rcases List.mem_cons.mp hm with heq | hins
    · injection heq with h1 h2
      subst h1
      subst h2
      rw [dictGet_eq_none rest k (fun q hq hqk => hnd.1 (by
        have hq1 : q.1 ∈ List.map Prod.fst rest := List.mem_map_of_mem Prod.fst hq
        rwa [hqk] at hq1))]
      simp
    · rw [ih k v hnd.2 hins]

/-- Unrolling the accumulator loop of `parse_knowledge_base_selection`: each
item contributes its resolution independently, in input order. -/
theorem foldl_resolveItem (l : List Str) :
    ∀ a b : List Str,
      l.foldl
        (fun acc item => (acc.1 ++ (resolveItem item).1, acc.2 ++ (resolveItem item).2))
        (a, b)
      = (a ++ (l.map (fun it => (resolveItem it).1)).flatten,
         b ++ (l.map (fun it => (resolveItem it).2)).flatten) := by
  induction l with
  | nil => intro a b; simp
  | cons x xs ih =>
    intro a b
    simp only [List.foldl_cons, List.map_cons, List.flatten]
    rw [ih]
    simp [List.append_assoc]

/-- Off the empty and `"all"` short-circuits, the parse is the concatenation
of the independent per-item resolutions of the trimmed non-empty pieces. -/
theorem parse_eq_flatten (s : Str) (hall : pyLower s ≠ chars "all") :
    parse_knowledge_base_selection s
      = (((selectionItems s).map (fun it => (resolveItem it).1)).flatten,
         ((selectionItems s).map (fun it => (resolveItem it).2)).flatten) := by
  by_cases hnil : s = []
  · subst hnil; decide
  · unfold parse_knowledge_base_selection
    rw [if_neg hnil, if_neg hall, foldl_resolveItem]
    simp

/-- Every id of the hardcoded catalog is 36 characters long with exactly 4
hyphens. -/
theorem catalog_ids_id_shaped :
    ∀ kb ∈ KNOWLEDGE_BASES, kb.id.length = 36 ∧ kb.id.count '-' = 4 := by decide

/-! The claim theorems. -/

/-- C1: a selection that, lowered, equals `"all"` resolves to every catalog id
in catalog definition order (with no warnings), the result length being the
catalog size. -/
theorem parse_all_selects_full_catalog (s : Str) (h : pyLower s = chars "all") :
    parse_knowledge_base_selection s = (KNOWLEDGE_BASES.map (fun kb => kb.id), [])
    ∧ (parse_knowledge_base_selection s).1.length = KNOWLEDGE_BASES.length := by
  have hnil : s ≠ [] := by
    intro hm
    rw [hm] at h
    exact absurd h (by decide)
  have heq : parse_knowledge_base_selection s
      = (KNOWLEDGE_BASES.map (fun kb => kb.id), []) := by
    unfold parse_knowledge_base_selection
    rw [if_neg hnil, if_pos h]
  exact ⟨heq, by rw [heq]; simp⟩

/-- Witness for C1 at the concrete selection `"ALL"`. -/
theorem parse_all_selects_full_catalog_witness :
    pyLower (chars "ALL") = chars "all"
    ∧ (parse_knowledge_base_selection (chars "ALL")).1.length = KNOWLEDGE_BASES.length :=
  ⟨by decide, (parse_all_selects_full_catalog (chars "ALL") (by decide)).2⟩

/-- C2: away from the `"all"` short-circuit, the selection is split on commas,
the pieces trimmed, empty pieces discarded, and the remaining items resolved
independently in input order, the per-item contributions concatenated without
deduplication; a repeated name yields a repeated id. -/
theorem parse_resolves_items_independently_in_order :
    (∀ s : Str, pyLower s ≠ chars "all" → s ≠ [] →
      parse_knowledge_base_selection s
        = (((selectionItems s).map (fun it => (resolveItem it).1)).flatten,
           ((selectionItems s).map (fun it => (resolveItem it).2)).flatten))
    ∧ parse_knowledge_base_selection (chars "Blossom Analysis,Blossom Analysis")
        = ([chars "8be6dfd9-ecaf-4e2b-8414-01aecb67e147",
            chars "8be6dfd9-ecaf-4e2b-8414-01aecb67e147"], []) :=
  ⟨fun s hall _ => parse_eq_flatten s hall, by decide⟩

/-- Witness for C2 at the concrete selection `"maps, blossom analysis"`. -/
theorem parse_resolves_items_independently_in_order_witness :
    pyLower (chars "maps, blossom analysis") ≠ chars "all"
    ∧ chars "maps, blossom analysis" ≠ []
    ∧ parse_knowledge_base_selection (chars "maps, blossom analysis")
        = (((selectionItems (chars "maps, blossom analysis")).map
              (fun it => (resolveItem it).1)).flatten,
           ((selectionItems (chars "maps, blossom analysis")).map
              (fun it => (resolveItem it).2)).flatten) :=
  ⟨by decide, by decide,
   parse_resolves_items_independently_in_order.1 (chars "maps, blossom analysis")
     (by decide) (by decide)⟩

/-- C3: an item that is exactly 36 characters long with exactly 4 hyphens is
appended verbatim, with no existence check; in particular the ID-shaped token
`"11111111-1111-1111-1111-111111111111"`, absent from the catalog, is returned
unchanged as a single-element sequence. -/
theorem id_shaped_item_passes_through (item : Str)
    (hlen : item.length = 36) (hcount : item.count '-' = 4) :
    resolveItem item = ([item], [])
    ∧ parse_knowledge_base_selection (chars "11111111-1111-1111-1111-111111111111")
        = ([chars "11111111-1111-1111-1111-111111111111"], [])
    ∧ get_knowledge_base_by_id (chars "11111111-1111-1111-1111-111111111111") = none := by
  refine ⟨?_, by decide, by decide⟩
  unfold resolveItem
  rw [if_pos ⟨hlen, hcount⟩]

/-- Witness for C3 at the concrete ID-shaped token of the spec. -/
theorem id_shaped_item_passes_through_witness :
    (chars "11111111-1111-1111-1111-111111111111").length = 36
    ∧ (chars "11111111-1111-1111-1111-111111111111").count '-' = 4
    ∧ resolveItem (chars "11111111-1111-1111-1111-111111111111")
        = ([chars "11111111-1111-1111-1111-111111111111"], []) :=
  ⟨by decide, by decide,
   (id_shaped_item_passes_through (chars "11111111-1111-1111-1111-111111111111")
      (by decide) (by decide)).1⟩

/-- C4: a non-ID-shaped item is looked up case-insensitively in the name
index: on success the record's id is appended, on failure the item is dropped
and warned about, processing continuing; `parse_knowledge_base_selection` is a
total function (it never raises), and the spec's three-token example yields
the two resolved ids plus exactly one warning. -/
theorem name_item_resolved_or_dropped_with_warning (item : Str)
    (hshape : ¬ (item.length = 36 ∧ item.count '-' = 4)) :
    (∀ kb : KnowledgeBase, get_knowledge_base_by_name item = some kb →
        resolveItem item = ([kb.id], []))
    ∧ (get_knowledge_base_by_name item = none → resolveItem item = ([], [item]))
    ∧ parse_knowledge_base_selection (chars "Blossom Analysis,Nonexistent Org,MAPS")
        = ([chars "8be6dfd9-ecaf-4e2b-8414-01aecb67e147",
            chars "f88d9d45-f25e-4051-8a84-a8d7873622b8"],
           [chars "Nonexistent Org"]) := by
  refine ⟨?_, ?_, by decide⟩
  · intro kb hkb
    unfold resolveItem
    rw [if_neg hshape, hkb]
  · intro hnone
    unfold resolveItem
    rw [if_neg hshape, hnone]

/-- Witness for C4 at the concrete unknown name `"Nonexistent Org"`. -/
theorem name_item_resolved_or_dropped_with_warning_witness :
    ¬ ((chars "Nonexistent Org").length = 36 ∧ (chars "Nonexistent Org").count '-' = 4)
    ∧ get_knowledge_base_by_name (chars "Nonexistent Org") = none
    ∧ resolveItem (chars "Nonexistent Org") = ([], [chars "Nonexistent Org"]) :=
  ⟨by decide, by decide,
   (name_item_resolved_or_dropped_with_warning (chars "Nonexistent Org")
      (by decide)).2.1 (by decide)⟩

/-- C5: the empty selection, and an absent (`None`) selection, both resolve to
the empty sequence with no warnings (and, the function being total, no
error). -/
theorem parse_empty_or_absent_selection_is_empty :
    parse_knowledge_base_selection (chars "") = ([], [])
    ∧ parse_knowledge_base_selection_opt none = ([], [])
    ∧ parse_knowledge_base_selection_opt (some (chars "")) = ([], []) := by
  decide

/-- C6: the hardcoded catalog has pairwise-distinct ids and pairwise-distinct
lowercased names, and both derived indices agree with the sequence:
`get_knowledge_base_by_id` returns exactly the matching record for every
catalog id and `none` for absent ids, and `get_knowledge_base_by_name`
returns, case-insensitively, exactly the matching record for every catalog
name and `none` for absent names. -/
theorem catalog_unique_and_lookups_agree :
    (KNOWLEDGE_BASES.map (fun kb => kb.id)).Nodup
    ∧ (KNOWLEDGE_BASES.map (fun kb => pyLower kb.name)).Nodup
    ∧ (∀ kb ∈ KNOWLEDGE_BASES, get_knowledge_base_by_id kb.id = some kb)
    ∧ (∀ (s : Str) (kb : KnowledgeBase),
        get_knowledge_base_by_id s = some kb → kb ∈ KNOWLEDGE_BASES ∧ kb.id = s)
    ∧ (∀ s : Str, (∀ kb ∈ KNOWLEDGE_BASES, kb.id ≠ s) →
        get_knowledge_base_by_id s = none)
    ∧ (∀ (kb : KnowledgeBase) (s : Str), kb ∈ KNOWLEDGE_BASES →
        pyLower s = pyLower kb.name → get_knowledge_base_by_name s = some kb)
    ∧ (∀ (s : Str) (kb : KnowledgeBase), get_knowledge_base_by_name s = some kb →
        kb ∈ KNOWLEDGE_BASES ∧ pyLower kb.name = pyLower s)
    ∧ (∀ s : Str, (∀ kb ∈ KNOWLEDGE_BASES, pyLower kb.name ≠ pyLower s) →
        get_knowledge_base_by_name s = none) := by
  refine ⟨by decide, by decide, by decide, ?_, ?_, ?_, ?_, ?_⟩
  · intro s kb h
    have hm := dictGet_some_mem _ _ _ h
    unfold KNOWLEDGE_BASES_BY_ID at hm
    rcases List.mem_map.mp hm with ⟨kb', hkb', heq⟩
    injection heq with h1 h2
    subst h2
    exact ⟨hkb', h1⟩
  · intro s h
    unfold get_knowledge_base_by_id
    apply dictGet_eq_none
    intro p hp
    unfold KNOWLEDGE_BASES_BY_ID at hp
    rcases List.mem_map.mp hp with ⟨kb', hkb', heq⟩
    rw [← heq]
    exact h kb' hkb'
  · intro kb s hmem hlow
    unfold get_knowledge_base_by_name
    rw [hlow]
    apply dictGet_of_mem_nodup
    · decide
    · exact List.mem_map_of_mem (fun kb => (pyLower kb.name, kb)) hmem
  · intro s kb h
    have hm := dictGet_some_mem _ _ _ h
    unfold KNOWLEDGE_BASES_BY_NAME at hm
    rcases List.mem_map.mp hm with ⟨kb', hkb', heq⟩
    injection heq with h1 h2
    subst h2
    exact ⟨hkb', h1⟩
  · intro s h
    unfold get_knowledge_base_by_name
    apply dictGet_eq_none
    intro p hp
    unfold KNOWLEDGE_BASES_BY_NAME at hp
    rcases List.mem_map.mp hp with ⟨kb', hkb', heq⟩
    rw [← heq]
    exact h kb' hkb'

/-- Witness for C6: case-insensitive name lookup of `"maps"` finds the MAPS
record (the third catalog entry). -/
theorem catalog_unique_and_lookups_agree_witness :
    KNOWLEDGE_BASES.get ⟨2, by decide⟩ ∈ KNOWLEDGE_BASES
    ∧ pyLower (chars "maps") = pyLower (KNOWLEDGE_BASES.get ⟨2, by decide⟩).name
    ∧ get_knowledge_base_by_name (chars "maps")
        = some (KNOWLEDGE_BASES.get ⟨2, by decide⟩) :=
  ⟨by decide, by decide,
   catalog_unique_and_lookups_agree.2.2.2.2.2.1 (KNOWLEDGE_BASES.get ⟨2, by decide⟩)
     (chars "maps") (by decide) (by decide)⟩

/-- C7: every id in the output of `parse_knowledge_base_selection` is shaped
like a 36-character hyphenated identifier (exactly 36 characters, exactly 4
hyphens): ID-shaped items satisfy it by classification, and every id reached
through the `"all"` branch or through a name lookup is a catalog id, all of
which have that shape. -/
theorem parse_output_ids_are_id_shaped (s : Str) (out : Str)
    (hmem : out ∈ (parse_knowledge_base_selection s).1) :
    out.length = 36 ∧ out.count '-' = 4 := by
  by_cases hall : pyLower s = chars "all"
  · by_cases hnil : s = []
    · rw [hnil] at hall
      exact absurd hall (by decide)
    · unfold parse_knowledge_base_selection at hmem
      rw [if_neg hnil, if_pos hall] at hmem
      dsimp only at hmem
      rcases List.mem_map.mp hmem with ⟨kb, hkb, heq⟩
      rw [← heq]
      exact catalog_ids_id_shaped kb hkb
  · rw [parse_eq_flatten s hall] at hmem
    dsimp only at hmem
    rcases List.mem_flatten.mp hmem with ⟨l, hl, hout⟩
    rcases List.mem_map.mp hl with ⟨item, hitem, hleq⟩
    rw [← hleq] at hout
    unfold resolveItem at hout
    by_cases hshape : item.length = 36 ∧ item.count '-' = 4
    · rw [if_pos hshape] at hout
      simp at hout
      rw [hout]
      exact hshape
    · rw [if_neg hshape] at hout
      cases hname : get_knowledge_base_by_name item with
      | some kb =>
        rw [hname] at hout
        simp at hout
        have hm := dictGet_some_mem _ _ _ hname
        unfold KNOWLEDGE_BASES_BY_NAME at hm
        rcases List.mem_map.mp hm with ⟨kb', hkb', heq⟩
        injection heq with h1 h2
        rw [hout, ← h2]
        exact catalog_ids_id_shaped kb' hkb'
      | none =>
        rw [hname] at hout
        simp at hout

/-- Witness for C7: the first id produced by `"all"` has the identifier
shape. -/
theorem parse_output_ids_are_id_shaped_witness :
    chars "8be6dfd9-ecaf-4e2b-8414-01aecb67e147"
        ∈ (parse_knowledge_base_selection (chars "all")).1
    ∧ (chars "8be6dfd9-ecaf-4e2b-8414-01aecb67e147").length = 36
    ∧ (chars "8be6dfd9-ecaf-4e2b-8414-01aecb67e147").count '-' = 4 := by
  refine ⟨by decide, ?_, ?_⟩
  · exact (parse_output_ids_are_id_shaped (chars "all")
      (chars "8be6dfd9-ecaf-4e2b-8414-01aecb67e147") (by decide)).1
  · exact (parse_output_ids_are_id_shaped (chars "all")
      (chars "8be6dfd9-ecaf-4e2b-8414-01aecb67e147") (by decide)).2

/-- C8: the description is, in order: a header, a separator, then for each
catalog entry in order one block made of the entry's 1-based position and
display name, its id, its organization URL and a blank line, then the static
usage examples; the operation only produces these lines. -/
theorem describe_catalog_one_block_per_entry :
    print_available_knowledge_bases
      = [chars "📚 Available Knowledge Bases:", List.replicate 50 '-']
        ++ (KNOWLEDGE_BASES.enum.map (fun p => kbBlock (p.1 + 1) p.2)).flatten
        ++ [chars "💡 Usage examples:",
            chars "  By name: -k \"Blossom Analysis,MAPS\"",
            chars "  By ID: -k \"8be6dfd9-ecaf-4e2b-8414-01aecb67e147\"",
            chars "  All: -k \"all\""] := by
  decide

/-- C9 counterexample: `list_available_knowledge_bases` hands back the record
references themselves (`KNOWLEDGE_BASES.copy()` is a shallow copy of a list of
mutable dataclass instances), so assigning to a field of the first element
obtained from the returned sequence changes the record seen through the
process-wide catalog. -/
theorem listCatalog_record_mutation_visible :
    viewCatalog
        (writeRef initState ((list_available_knowledge_bases initState).headD 0)
          { id := chars "8be6dfd9-ecaf-4e2b-8414-01aecb67e147",
            name := chars "Mutated Name",
            icon_url := chars "images/logos/blossom_analysis.jpg",
            brand_color := chars "#FFFFFF",
            org_url := chars "https://blossomanalysis.com" })
      ≠ viewCatalog initState := by
  decide

/-- C9 amended: `list_available_knowledge_bases` returns a copy of the full
catalog sequence in original definition order, and no record mutation can
change the catalog sequence itself (its membership and order); but the copy is
shallow — the records are shared — so mutating a record through an element of
the returned sequence does change the process-wide catalog contents. -/
theorem listCatalog_shallow_copy :
    ((list_available_knowledge_bases initState).map (readRef initState)
        = KNOWLEDGE_BASES.map some)
    ∧ (∀ (a : Nat) (kb : KnowledgeBase),
        (writeRef initState a kb).catalogRefs = initState.catalogRefs)
    ∧ (0 : Nat) ∈ list_available_knowledge_bases initState
    ∧ viewCatalog
          (writeRef initState 0
            { id := chars "8be6dfd9-ecaf-4e2b-8414-01aecb67e147",
              name := chars "Mutated Name",
              icon_url := chars "images/logos/blossom_analysis.jpg",
              brand_color := chars "#FFFFFF",
              org_url := chars "https://blossomanalysis.com" })
        ≠ viewCatalog initState :=
  ⟨by decide, fun _ _ => rfl, by decide, by decide⟩

/-- Witness for the amended C9: a record mutation at address 2 leaves the
catalog sequence of addresses untouched. -/
theorem listCatalog_shallow_copy_witness :
    (writeRef initState 2
        { id := [], name := [], icon_url := [], brand_color := [], org_url := [] }).catalogRefs
      = initState.catalogRefs :=
  listCatalog_shallow_copy.2.1 2
    { id := [], name := [], icon_url := [], brand_color := [], org_url := [] }

/-- C10: the `"all"` wildcard fires only when the whole selection, lowered,
equals `"all"`: the token `"all"` inside a comma list, or `"all"` surrounded
by whitespace, is classified as a name, misses the name index (no entry is
named `"all"`), and is dropped with a warning instead of expanding the
catalog. -/
theorem all_keyword_only_matches_whole_string :
    parse_knowledge_base_selection (chars " all ") = ([], [chars "all"])
    ∧ parse_knowledge_base_selection (chars "all,MAPS")
        = ([chars "f88d9d45-f25e-4051-8a84-a8d7873622b8"], [chars "all"])
    ∧ selectionItems (chars "all,MAPS") = [chars "all", chars "MAPS"]
    ∧ get_knowledge_base_by_name (chars "all") = none
    ∧ resolveItem (chars "all") = ([], [chars "all"]) := by
  decide
